import Mathlib

/-!
Verification development for the brand-voice campaign pipeline (src/app.py).

The embedding works over `List Char` as the model of Python strings.  The
external JSON library (`json.loads`, `json.dumps`) is abstracted as function
parameters (`parse`, `pretty`); a concrete executable model parser
(`jsonParse`) and serializer (`prettyJson`) are provided so that theorems with
hypotheses can be instantiated at concrete inputs.
-/

set_option autoImplicit false

namespace BrandVoice

/-- Convert a string literal to the `List Char` representation used throughout. -/
def strL (s : String) : List Char := s.data

/-- Model of a parsed JSON document (the result of `json.loads`).  Numbers are
modelled as integers: no claim depends on non-integer numerics.  Objects keep
their key-value pairs in order; Python dict semantics (last duplicate key wins)
is modelled in `lookupField`. -/
inductive Json : Type where
  | null : Json
  | bool (b : Bool) : Json
  | num (n : Int) : Json
  | str (s : List Char) : Json
  | arr (xs : List Json) : Json
  | obj (fields : List (List Char × Json)) : Json

/-- Default JSON value (used only for instance search). -/
instance : Inhabited Json := ⟨Json.null⟩

/-- Python `dict` lookup for an object's field list: the last occurrence of a
duplicated key wins, matching how `json.loads` builds a dict. -/
def lookupField (fs : List (List Char × Json)) (k : List Char) : Option Json :=
  match fs with
  | [] => none
  | (k', v) :: rest =>
    match lookupField rest k with
    | some r => some r
    | none => if k' = k then some v else none

/-- Whitespace stripped by Python `str.strip()` (ASCII whitespace; the model
omits the exotic unicode space characters, which no claim exercises). -/
def pySpace (c : Char) : Bool :=
  c = ' ' || c = '\t' || c = '\n' || c = '\r' || c = '\x0b' || c = '\x0c'

/-- Drop trailing characters satisfying `P` (the tail half of `str.strip`). -/
def dropTrail (P : Char → Bool) (l : List Char) : List Char :=
  (List.dropWhile P l.reverse).reverse

/-- Model of Python `text.strip()`: drop leading and trailing whitespace. -/
def pyStrip (cs : List Char) : List Char :=
  dropTrail pySpace (List.dropWhile pySpace cs)

/-- Longest prefix of `cs` that ends at the last close brace of `cs`, if `cs`
contains one.  This is the greedy part of the regex used in `extract_json`. -/
def upToLastClose : List Char → Option (List Char)
  | [] => none
  | c :: rest =>
    match upToLastClose rest with
    | some t => some (c :: t)
    | none => if c = '\x7d' then some [c] else none

/-- Model of `re.search(r"\x7b.*\x7d", text, flags=re.S)` from src/app.py line
21: the leftmost match starts at the first open brace that has a close brace
after it, and the greedy `.*` extends the match to the last close brace. -/
def greedyBraceMatch : List Char → Option (List Char)
  | [] => none
  | c :: rest =>
    if c = '\x7b' then (upToLastClose rest).map (fun t => c :: t)
    else greedyBraceMatch rest

/-- Candidate substring handed to `json.loads` by `extract_json` (src/app.py
lines 13-24): strip whitespace; if the stripped text starts with an open brace
and ends with a close brace it is parsed whole, otherwise the greedy
brace-delimited block is searched for. -/
def extractCandidate (text : List Char) : Option (List Char) :=
  let t := pyStrip text
  if t.head? = some '\x7b' ∧ t.getLast? = some '\x7d' then some t
  else greedyBraceMatch t

/-- Failure kinds of the JSON extractor, following the spec's taxonomy:
`extractionError` models the `ValueError("No JSON object found in model
output.")` raised on line 23, `parseError` models `json.loads` raising on an
invalid candidate. -/
inductive ExtractError : Type where
  | extractionError : ExtractError
  | parseError : ExtractError
deriving DecidableEq, Repr

/-- Model of `extract_json` (src/app.py lines 13-24), parametric in the
external `json.loads` (`parse`; `none` models a raised `JSONDecodeError`). -/
def extract_json {α : Type} (parse : List Char → Option α) (text : List Char) :
    Except ExtractError α :=
  match extractCandidate text with
  | none => Except.error ExtractError.extractionError
  | some cand =>
    match parse cand with
    | some v => Except.ok v
    | none => Except.error ExtractError.parseError

/-!
Concrete model of the external JSON library.  `jsonParse` models `json.loads`
on the fragment exercised by the witnesses (literals, integers, strings with
simple escapes, arrays, objects); `prettyJson` models `json.dumps`.  The main
theorems stay parametric in `parse` and `pretty`; these models only serve to
instantiate them at concrete inputs.
-/

/-- JSON whitespace accepted between tokens by `json.loads`. -/
def jsonSpace (c : Char) : Bool :=
  c = ' ' || c = '\t' || c = '\n' || c = '\r'

/-- Skip JSON whitespace. -/
def skipWs (cs : List Char) : List Char := List.dropWhile jsonSpace cs

/-- Decode a single-character JSON string escape (unicode escapes omitted:
no witness needs them). -/
def unescapeChar (c : Char) : Option Char :=
  if c = '"' then some '"'
  else if c = '\\' then some '\\'
  else if c = '/' then some '/'
  else if c = 'n' then some '\n'
  else if c = 't' then some '\t'
  else if c = 'r' then some '\r'
  else if c = 'b' then some '\x08'
  else if c = 'f' then some '\x0c'
  else none

/-- Parse the body of a JSON string after the opening quote; returns the
decoded characters and the remainder after the closing quote. -/
def parseStringBody : List Char → Option (List Char × List Char)
  | [] => none
  | '"' :: rest => some ([], rest)
  | '\\' :: e :: rest => do
    let ec ← unescapeChar e
    let (s, r) ← parseStringBody rest
    pure (ec :: s, r)
  | c :: rest => do
    let (s, r) ← parseStringBody rest
    pure (c :: s, r)

/-- Split a leading run of decimal digits from the input. -/
def takeDigits : List Char → List Char × List Char
  | [] => ([], [])
  | c :: rest =>
    if c.isDigit then
      let (ds, r) := takeDigits rest
      (c :: ds, r)
    else ([], c :: rest)

/-- Numeric value of a digit run. -/
def digitsToNat (ds : List Char) : Nat :=
  ds.foldl (fun acc c => acc * 10 + (c.toNat - 48)) 0

/-- Consume `lit` as a prefix of `cs`, returning the remainder. -/
def stripLit (lit : List Char) (cs : List Char) : Option (List Char) :=
  match lit, cs with
  | [], r => some r
  | l :: ls, c :: r => if c = l then stripLit ls r else none
  | _ :: _, [] => none

/-- Parse an optionally negated integer (the model omits floats, which no
witness uses). -/
def parseIntLit (cs : List Char) : Option (Json × List Char) :=
  match cs with
  | '-' :: rest =>
    match takeDigits rest with
    | ([], _) => none
    | (ds, r) => some (Json.num (-(digitsToNat ds : Int)), r)
  | _ =>
    match takeDigits cs with
    | ([], _) => none
    | (ds, r) => some (Json.num (digitsToNat ds : Int), r)

/-- Parse the members of a JSON object after its opening brace (at least one
member; the empty object is handled by the caller). -/
def parseMembers (pv : List Char → Option (Json × List Char)) :
    Nat → List Char → Option (List (List Char × Json) × List Char)
  | 0, _ => none
  | fuel + 1, cs =>
    match skipWs cs with
    | '"' :: rest => do
      let (k, r1) ← parseStringBody rest
      match skipWs r1 with
      | ':' :: r2 => do
        let (v, r3) ← pv r2
        match skipWs r3 with
        | ',' :: r4 => do
          let (ms, r5) ← parseMembers pv fuel r4
          pure ((k, v) :: ms, r5)
        | '\x7d' :: r4 => pure ([(k, v)], r4)
        | _ => none
      | _ => none
    | _ => none

/-- Parse the elements of a JSON array after its opening bracket (at least one
element; the empty array is handled by the caller). -/
def parseElems (pv : List Char → Option (Json × List Char)) :
    Nat → List Char → Option (List Json × List Char)
  | 0, _ => none
  | fuel + 1, cs => do
    let (v, r1) ← pv cs
    match skipWs r1 with
    | ',' :: r2 => do
      let (vs, r3) ← parseElems pv fuel r2
      pure (v :: vs, r3)
    | ']' :: r2 => pure ([v], r2)
    | _ => none

/-- Fuel-indexed recursive-descent parser for a JSON value. -/
def parseValue : Nat → List Char → Option (Json × List Char)
  | 0, _ => none
  | fuel + 1, cs0 =>
    match skipWs cs0 with
    | [] => none
    | c :: rest =>
      if c = '"' then
        match parseStringBody rest with
        | some (s, r) => some (Json.str s, r)
        | none => none
      else if c = '\x7b' then
        match skipWs rest with
        | '\x7d' :: r => some (Json.obj [], r)
        | cs1 => (parseMembers (parseValue fuel) fuel cs1).map
            (fun p => (Json.obj p.1, p.2))
      else if c = '[' then
        match skipWs rest with
        | ']' :: r => some (Json.arr [], r)
        | cs1 => (parseElems (parseValue fuel) fuel cs1).map
            (fun p => (Json.arr p.1, p.2))
      else if c = 'n' then (stripLit (strL "ull") rest).map (fun r => (Json.null, r))
      else if c = 't' then (stripLit (strL "rue") rest).map (fun r => (Json.bool true, r))
      else if c = 'f' then (stripLit (strL "alse") rest).map (fun r => (Json.bool false, r))
      else parseIntLit (c :: rest)

/-- Concrete model of `json.loads`: parse one JSON value and require that only
whitespace remains. -/
def jsonParse (cs : List Char) : Option Json :=
  match parseValue (cs.length + 1) cs with
  | some (v, rest) => if (skipWs rest).isEmpty then some v else none
  | none => none

mutual

/-- JSON serializer for a single value, used by `prettyJson`. -/
def serializeJson : Json → List Char
  | Json.null => strL "null"
  | Json.bool b => if b then strL "true" else strL "false"
  | Json.num n => strL (toString n)
  | Json.str s => '"' :: (s ++ ['"'])
  | Json.arr xs => '[' :: (serializeArr xs ++ [']'])
  | Json.obj fs => '\x7b' :: (serializeObj fs ++ ['\x7d'])

/-- Serialize the comma-separated elements of a JSON array. -/
def serializeArr : List Json → List Char
  | [] => []
  | [x] => serializeJson x
  | x :: y :: xs => serializeJson x ++ (',' :: ' ' :: serializeArr (y :: xs))

/-- Serialize the comma-separated members of a JSON object. -/
def serializeObj : List (List Char × Json) → List Char
  | [] => []
  | [kv] => '"' :: (kv.1 ++ ('"' :: ':' :: ' ' :: serializeJson kv.2))
  | kv :: kv2 :: fs =>
    ('"' :: (kv.1 ++ ('"' :: ':' :: ' ' :: serializeJson kv.2)))
      ++ (',' :: ' ' :: serializeObj (kv2 :: fs))

end

/-- Concrete model of `pretty_json` (src/app.py lines 48-49, `json.dumps` with
indentation).  The exact layout of the serialized text is immaterial: every
claim treats the serializer abstractly, and this model only feeds witnesses. -/
def prettyJson (j : Json) : List Char := serializeJson j

/-!
Lemmas about the extractor, leading to the properties claimed for it: how
stripping and the greedy brace search behave on prose-wrapped JSON.
-/

/-- Presence of an open brace followed (not necessarily adjacently) by a close
brace, the shape the greedy regex can match. -/
def HasBracePair (cs : List Char) : Prop :=
  ∃ a b c, cs = a ++ '\x7b' :: (b ++ '\x7d' :: c)

theorem hasBracePair_mono {m x y : List Char} (h : HasBracePair m) :
    HasBracePair (x ++ m ++ y) := by
  obtain ⟨a, b, c, rfl⟩ := h
  exact ⟨x ++ a, b, c ++ y, by simp⟩

theorem exists_dropWhile_eq (P : Char → Bool) (l : List Char) :
    ∃ a, l = a ++ List.dropWhile P l := by
  induction l with
  | nil => exact ⟨[], rfl⟩
  | cons x xs ih =>
    by_cases hx : P x
    · obtain ⟨a, ha⟩ := ih
      exact ⟨x :: a, by simpa [List.dropWhile, hx] using congrArg (x :: ·) ha⟩
    · exact ⟨[], by simp [List.dropWhile, hx]⟩

theorem pyStrip_decomp (cs : List Char) : ∃ x y, cs = x ++ pyStrip cs ++ y := by
  obtain ⟨x, hx⟩ := exists_dropWhile_eq pySpace cs
  obtain ⟨u, hu⟩ := exists_dropWhile_eq pySpace (List.dropWhile pySpace cs).reverse
  refine ⟨x, u.reverse, ?_⟩
  have hd : List.dropWhile pySpace cs = pyStrip cs ++ u.reverse := by
    have := congrArg List.reverse hu
    simpa [pyStrip, dropTrail] using this
  calc cs = x ++ List.dropWhile pySpace cs := hx
    _ = x ++ (pyStrip cs ++ u.reverse) := by rw [hd]
    _ = x ++ pyStrip cs ++ u.reverse := by rw [List.append_assoc]

theorem mem_of_mem_dropWhile {P : Char → Bool} {c : Char} {l : List Char}
    (h : c ∈ List.dropWhile P l) : c ∈ l := by
  obtain ⟨a, ha⟩ := exists_dropWhile_eq P l
  rw [ha]
  exact List.mem_append_right a h

theorem mem_of_mem_dropTrail {P : Char → Bool} {c : Char} {l : List Char}
    (h : c ∈ dropTrail P l) : c ∈ l := by
  have : c ∈ l.reverse := mem_of_mem_dropWhile (by simpa [dropTrail] using h)
  simpa using this

theorem upToLastClose_some {xs t : List Char} (h : upToLastClose xs = some t) :
    ∃ b c, xs = b ++ '\x7d' :: c ∧ t = b ++ ['\x7d'] := by
  induction xs generalizing t with
  | nil => simp [upToLastClose] at h
  | cons x rest ih =>
    rw [upToLastClose] at h
    cases hr : upToLastClose rest with
    | some tl =>
      rw [hr] at h
      obtain ⟨b, c, hbc, htl⟩ := ih hr
      refine ⟨x :: b, c, by simp [hbc], ?_⟩
      cases h
      simp [htl]
    | none =>
      rw [hr] at h
      by_cases hx : x = '\x7d'
      · subst hx
        simp at h
        exact ⟨[], rest, rfl, h.symm⟩
      · simp [hx] at h

theorem greedyBraceMatch_some {cs m : List Char}
    (h : greedyBraceMatch cs = some m) : HasBracePair cs := by
  induction cs with
  | nil => simp [greedyBraceMatch] at h
  | cons x rest ih =>
    rw [greedyBraceMatch] at h
    by_cases hx : x = '\x7b'
    · subst hx
      simp at h
      obtain ⟨t, ht, _⟩ := h
      obtain ⟨b, c, hbc, _⟩ := upToLastClose_some ht
      exact ⟨[], b, c, by simp [hbc]⟩
    · rw [if_neg hx] at h
      obtain ⟨a, b, c, hab⟩ := ih h
      exact ⟨x :: a, b, c, by simp [hab]⟩

theorem hasPair_of_head_last {t : List Char} (h1 : t.head? = some '\x7b')
    (h2 : t.getLast? = some '\x7d') : HasBracePair t := by
  cases t with
  | nil => simp at h1
  | cons c tl =>
    have hc : c = '\x7b' := by simpa using h1
    subst hc
    rcases List.eq_nil_or_concat tl with h | ⟨b, x, htl⟩
    · subst h
      simp [List.getLast?] at h2
    · rw [List.concat_eq_append] at htl
      subst htl
      have hx : x = '\x7d' := by
        have := List.getLast?_concat (l := '\x7b' :: b) (a := x)
        rw [show '\x7b' :: (b ++ [x]) = ('\x7b' :: b) ++ [x] by simp, this] at h2
        simpa using h2
      subst hx
      exact ⟨[], b, [], by simp⟩

theorem upToLastClose_eq_none {ys : List Char} (h : '\x7d' ∉ ys) :
    upToLastClose ys = none := by
  induction ys with
  | nil => rfl
  | cons y rest ih =>
    have hy : ¬ (y = '\x7d') := fun hc => h (hc ▸ List.mem_cons_self y rest)
    have hrest : '\x7d' ∉ rest := fun hc => h (List.mem_cons_of_mem y hc)
    rw [upToLastClose, ih hrest, if_neg hy]

theorem upToLastClose_wrapped {b ys : List Char} (h : '\x7d' ∉ ys) :
    upToLastClose ((b ++ ['\x7d']) ++ ys) = some (b ++ ['\x7d']) := by
  induction b with
  | nil =>
    simp only [List.nil_append, List.cons_append]
    rw [upToLastClose, upToLastClose_eq_none h, if_pos rfl]
  | cons x b' ih =>
    have : ((x :: b') ++ ['\x7d']) ++ ys = x :: ((b' ++ ['\x7d']) ++ ys) := by simp
    rw [this, upToLastClose, ih]
    rfl

theorem greedy_wrapped {p1 s1 jt : List Char} (hp : '\x7b' ∉ p1)
    (hs : '\x7d' ∉ s1) (hjt : ∃ b, jt = b ++ ['\x7d']) :
    greedyBraceMatch (p1 ++ ('\x7b' :: jt) ++ s1) = some ('\x7b' :: jt) := by
  induction p1 with
  | nil =>
    obtain ⟨b, rfl⟩ := hjt
    have harr : ([] ++ ('\x7b' :: (b ++ ['\x7d'])) ++ s1)
        = '\x7b' :: ((b ++ ['\x7d']) ++ s1) := by simp
    rw [harr, greedyBraceMatch, if_pos rfl, upToLastClose_wrapped hs]
    rfl
  | cons x p1' ih =>
    have hx : ¬ (x = '\x7b') := fun hc => hp (hc ▸ List.mem_cons_self x p1')
    have hp' : '\x7b' ∉ p1' := fun hc => hp (List.mem_cons_of_mem x hc)
    have harr : ((x :: p1') ++ ('\x7b' :: jt) ++ s1)
        = x :: (p1' ++ ('\x7b' :: jt) ++ s1) := by simp
    rw [harr, greedyBraceMatch, if_neg hx, ih hp']

theorem head?_append_left {j s : List Char} (hj : j ≠ []) :
    (j ++ s).head? = j.head? := by
  cases j with
  | nil => exact absurd rfl hj
  | cons c tl => rfl

theorem dropWhile_append_head {P : Char → Bool} {a b : List Char}
    (hb : ∀ c, b.head? = some c → P c = false) :
    List.dropWhile P (a ++ b) = List.dropWhile P a ++ b := by
  induction a with
  | nil =>
    cases b with
    | nil => rfl
    | cons c t => simp [List.dropWhile, hb c rfl]
  | cons x a' ih =>
    by_cases hx : P x
    · simpa [List.dropWhile, hx] using ih
    · simp [List.dropWhile, hx]

theorem pyStrip_wrapped {p j s : List Char} (hj1 : j.head? = some '\x7b')
    (hj2 : j.getLast? = some '\x7d') :
    pyStrip (p ++ j ++ s)
      = List.dropWhile pySpace p ++ j ++ dropTrail pySpace s := by
  have hjne : j ≠ [] := by intro h; rw [h] at hj1; simp at hj1
  have step1 : List.dropWhile pySpace (p ++ j ++ s)
      = List.dropWhile pySpace p ++ (j ++ s) := by
    rw [List.append_assoc]
    refine dropWhile_append_head ?_
    intro c hc
    rw [head?_append_left hjne, hj1] at hc
    cases hc
    decide
  have hrevne : j.reverse ≠ [] := by simpa using hjne
  have hrevhead : j.reverse.head? = some '\x7d' := by
    rw [List.head?_reverse]
    exact hj2
  have step2 : List.dropWhile pySpace (s.reverse ++ (j.reverse ++ (List.dropWhile pySpace p).reverse))
      = List.dropWhile pySpace s.reverse ++ (j.reverse ++ (List.dropWhile pySpace p).reverse) := by
    refine dropWhile_append_head ?_
    intro c hc
    rw [head?_append_left hrevne, hrevhead] at hc
    cases hc
    decide
  rw [pyStrip, step1, dropTrail]
  rw [show (List.dropWhile pySpace p ++ (j ++ s)).reverse
      = s.reverse ++ (j.reverse ++ (List.dropWhile pySpace p).reverse) by simp]
  rw [step2]
  simp [dropTrail, List.append_assoc]

/-!
Claim theorems for the JSON Extractor (C5, C6).
-/

/-- Claim C5, counterexample: the claim quantifies over arbitrary non-JSON
prose, but when the prose itself contains a brace the greedy candidate spans
from the prose's first open brace, is not valid JSON, and extraction fails
with a parse error instead of returning the object parsed from the enclosed
valid JSON substring. -/
theorem c5_counterexample :
    jsonParse (strL "\x7b\"a\": 1\x7d") = some (Json.obj [(strL "a", Json.num 1)]) ∧
    extract_json jsonParse (strL "see \x7bbelow\x7d: " ++ strL "\x7b\"a\": 1\x7d" ++ strL "")
      = Except.error ExtractError.parseError :=
  ⟨rfl, rfl⟩

/-- Claim C5 (amended): the extractor trims whitespace, parses directly when
the trimmed text starts with an open brace and ends with a close brace, and
otherwise parses the greedy first-open-brace-to-last-close-brace substring;
consequently, for every text that is a valid JSON object surrounded by prose
containing no brace characters, it returns the same object as parsing the
enclosed substring directly. -/
theorem c5_extract_wrapped (α : Type) (parse : List Char → Option α)
    (p j s : List Char) (v : α)
    (hp : ∀ c ∈ p, c ≠ '\x7b' ∧ c ≠ '\x7d')
    (hs : ∀ c ∈ s, c ≠ '\x7b' ∧ c ≠ '\x7d')
    (hj1 : j.head? = some '\x7b') (hj2 : j.getLast? = some '\x7d')
    (hv : parse j = some v) :
    extract_json parse (p ++ j ++ s) = Except.ok v := by
  obtain ⟨jt, rfl⟩ : ∃ jt, j = '\x7b' :: jt := by
    cases j with
    | nil => simp at hj1
    | cons c tl =>
      have hc : c = '\x7b' := by simpa using hj1
      exact ⟨tl, by rw [hc]⟩
  have hjt : ∃ b, jt = b ++ ['\x7d'] := by
    rcases List.eq_nil_or_concat jt with h | ⟨b, x, htl⟩
    · subst h
      simp [List.getLast?] at hj2
    · rw [List.concat_eq_append] at htl
      subst htl
      have hx : x = '\x7d' := by
        have := List.getLast?_concat (l := '\x7b' :: b) (a := x)
        rw [show '\x7b' :: (b ++ [x]) = ('\x7b' :: b) ++ [x] by simp, this] at hj2
        simpa using hj2
      exact ⟨b, by rw [hx]⟩
  have hst := pyStrip_wrapped (p := p) (s := s) hj1 hj2
  have hp1 : ∀ c ∈ List.dropWhile pySpace p, c ≠ '\x7b' ∧ c ≠ '\x7d' :=
    fun c hc => hp c (mem_of_mem_dropWhile hc)
  have hs1 : ∀ c ∈ dropTrail pySpace s, c ≠ '\x7b' ∧ c ≠ '\x7d' :=
    fun c hc => hs c (mem_of_mem_dropTrail hc)
  have hpb : '\x7b' ∉ List.dropWhile pySpace p := fun hmem => (hp1 _ hmem).1 rfl
  have hsb : '\x7d' ∉ dropTrail pySpace s := fun hmem => (hs1 _ hmem).2 rfl
  have hcand : extractCandidate (p ++ ('\x7b' :: jt) ++ s) = some ('\x7b' :: jt) := by
    show (if (pyStrip (p ++ ('\x7b' :: jt) ++ s)).head? = some '\x7b' ∧
            (pyStrip (p ++ ('\x7b' :: jt) ++ s)).getLast? = some '\x7d'
          then some (pyStrip (p ++ ('\x7b' :: jt) ++ s))
          else greedyBraceMatch (pyStrip (p ++ ('\x7b' :: jt) ++ s))) = some ('\x7b' :: jt)
    rw [hst]
    by_cases hpe : List.dropWhile pySpace p = []
    · by_cases hse : dropTrail pySpace s = []
      · rw [hpe, hse]
        simp only [List.nil_append, List.append_nil]
        rw [if_pos ⟨hj1, hj2⟩]
      · rcases List.eq_nil_or_concat (dropTrail pySpace s) with h | ⟨b1, x, hs1d⟩
        · exact absurd h hse
        · rw [List.concat_eq_append] at hs1d
          have hxmem : x ∈ dropTrail pySpace s := by
            rw [hs1d]
            exact List.mem_append_right b1 (List.mem_singleton.mpr rfl)
          have hxne : ¬ (x = '\x7d') := (hs1 x hxmem).2
          rw [if_neg ?hneg, hpe]
          case hneg =>
            rintro ⟨-, hlast⟩
            rw [hs1d, show List.dropWhile pySpace p ++ ('\x7b' :: jt) ++ (b1 ++ [x])
                = (List.dropWhile pySpace p ++ ('\x7b' :: jt) ++ b1) ++ [x] by simp,
              List.getLast?_concat] at hlast
            exact hxne (by simpa using hlast)
          exact greedy_wrapped (by simp) hsb hjt
    · rcases hq : List.dropWhile pySpace p with - | ⟨c, p1t⟩
      · exact absurd hq hpe
      · rw [if_neg ?hneg2]
        case hneg2 =>
          rintro ⟨hhead, -⟩
          rw [show (c :: p1t) ++ ('\x7b' :: jt) ++ dropTrail pySpace s
              = c :: (p1t ++ ('\x7b' :: jt) ++ dropTrail pySpace s) by simp] at hhead
          have hc : c = '\x7b' := by simpa using hhead
          exact (hp1 c (by rw [hq]; exact List.mem_cons_self c p1t)).1 hc
        exact greedy_wrapped (hq ▸ hpb) hsb hjt
  have hcand2 : extractCandidate (p ++ '\x7b' :: (jt ++ s)) = some ('\x7b' :: jt) := by
    simpa using hcand
  simp [extract_json, hcand2, hv]

/-- Claim C5, witness: a concrete valid JSON object wrapped in brace-free prose
extracts to exactly the object obtained by parsing the enclosed substring. -/
theorem c5_witness :
    extract_json jsonParse
        (strL "Sure! Here you go: " ++ strL "\x7b\"a\": 1\x7d" ++ strL " Hope this helps.")
      = Except.ok (Json.obj [(strL "a", Json.num 1)]) :=
  c5_extract_wrapped Json jsonParse (strL "Sure! Here you go: ")
    (strL "\x7b\"a\": 1\x7d") (strL " Hope this helps.")
    (Json.obj [(strL "a", Json.num 1)])
    (by decide) (by decide) (by decide) (by decide) rfl

/-- Claim C6 (confirmed): on text with no open-brace-then-close-brace pair the
extractor fails with the extraction error, and when a candidate substring is
found but is not valid JSON it fails with the parse error instead. -/
theorem c6_extractor_errors :
    (∀ (α : Type) (parse : List Char → Option α) (text : List Char),
        ¬ HasBracePair text →
        extract_json parse text = Except.error ExtractError.extractionError) ∧
    (∀ (α : Type) (parse : List Char → Option α) (text cand : List Char),
        extractCandidate text = some cand → parse cand = none →
        extract_json parse text = Except.error ExtractError.parseError) := by
  constructor
  · intro α parse text hno
    have hno_t : ¬ HasBracePair (pyStrip text) := by
      intro h
      obtain ⟨x, y, hxy⟩ := pyStrip_decomp text
      exact hno (hxy ▸ hasBracePair_mono h)
    have hcond : ¬ ((pyStrip text).head? = some '\x7b' ∧
        (pyStrip text).getLast? = some '\x7d') :=
      fun hc => hno_t (hasPair_of_head_last hc.1 hc.2)
    have hg : greedyBraceMatch (pyStrip text) = none := by
      cases hg2 : greedyBraceMatch (pyStrip text) with
      | none => rfl
      | some m => exact absurd (greedyBraceMatch_some hg2) hno_t
    have hcand : extractCandidate text = none := by
      show (if (pyStrip text).head? = some '\x7b' ∧ (pyStrip text).getLast? = some '\x7d'
            then some (pyStrip text) else greedyBraceMatch (pyStrip text)) = none
      rw [if_neg hcond, hg]
    simp [extract_json, hcand]
  · intro α parse text cand h1 h2
    simp [extract_json, h1, h2]

/-- Claim C6, witness: a brace-free text yields the extraction error, and a
brace-delimited but invalid candidate yields the parse error. -/
theorem c6_witness :
    extract_json jsonParse (strL "the model produced no structured output")
      = Except.error ExtractError.extractionError ∧
    extract_json jsonParse (strL "x \x7bnot json\x7d y")
      = Except.error ExtractError.parseError := by
  constructor
  · refine c6_extractor_errors.1 Json jsonParse _ ?_
    rintro ⟨a, b, c, h⟩
    have hmem : '\x7b' ∈ strL "the model produced no structured output" := by
      rw [h]; simp
    exact absurd hmem (by decide)
  · exact c6_extractor_errors.2 Json jsonParse _ _ rfl rfl

/-!
Embedding of the pipeline: prompt templates, the LLM call adapter, the session
store and the two button handlers of src/app.py.
-/

/-- System instruction for stage 1 (src/app.py lines 54-62). -/
def VOICE_CARD_INSTRUCTIONS : List Char :=
  strL "You are a senior brand strategist and creative director.\nReturn VALID JSON ONLY. No markdown. No extra commentary.\n\nHard rules:\n- Use ONLY facts from the provided product description and user inputs.\n- Never invent numbers, claims, certifications, pricing, partnerships, or availability.\n- If a key detail is missing, use a placeholder like: [INSERT PRICE], [INSERT PROOF], [INSERT DATE].\n- You MUST return valid JSON that matches the requested schema.\n"

/-- Piece of `VOICE_CARD_USER_TEMPLATE` before the brand-name hole. -/
def vcUserPre : List Char := strL "Create a Brand Voice Card for the following.\n\nBrand name: "

/-- Piece of `VOICE_CARD_USER_TEMPLATE` between brand name and audience. -/
def vcUserMid1 : List Char := strL "\nTarget audience: "

/-- Piece of `VOICE_CARD_USER_TEMPLATE` between audience and objective. -/
def vcUserMid2 : List Char := strL "\nPrimary objective: "

/-- Piece of `VOICE_CARD_USER_TEMPLATE` between objective and product description. -/
def vcUserMid3 : List Char := strL "\nProduct description (source of truth): "

/-- Schema tail of `VOICE_CARD_USER_TEMPLATE` after the product description. -/
def vcUserSchema : List Char := strL "\n\nOutput JSON schema:\n\x7b\n  \"brand\": \x7b\n    \"name\": \"...\",\n    \"positioning_one_liner\": \"...\",\n    \"audience\": \"...\",\n    \"objective\": \"...\"\n  \x7d,\n  \"voice\": \x7b\n    \"tone_traits\": [\"...\", \"...\", \"...\"],\n    \"formality\": \"low|medium|high\",\n    \"sentence_style\": \"short|mixed|long\",\n    \"humor_level\": \"none|light|playful\",\n    \"emoji_policy\": \"none|sparingly|allowed\",\n    \"pov\": \"we|you|third_person\"\n  \x7d,\n  \"lexicon\": \x7b\n    \"use\": [\"...\", \"...\"],\n    \"avoid\": [\"...\", \"...\"]\n  \x7d,\n  \"style_rules\": [\n    \"...\"\n  ],\n  \"compliance_guardrails\": [\n    \"...\"\n  ]\n\x7d\n"

/-- Model of `VOICE_CARD_USER_TEMPLATE.format` (src/app.py lines 64-98 and
287-292): the rendered stage-1 user payload. -/
def voice_card_user (brand_name audience objective product_description : List Char) :
    List Char :=
  vcUserPre ++ brand_name ++ vcUserMid1 ++ audience ++ vcUserMid2 ++ objective
    ++ vcUserMid3 ++ product_description ++ vcUserSchema

/-- System instruction for stage 2 (src/app.py lines 100-109). -/
def ASSETS_INSTRUCTIONS : List Char :=
  strL "You are a performance marketer and brand copy lead.\nReturn VALID JSON ONLY. No markdown. No extra commentary.\n\nHard rules:\n- Use ONLY facts from the provided product description + voice card.\n- Do not invent metrics, awards, logos, customer names, compliance claims, or prices.\n- If needed, use placeholders like [INSERT PRICE], [INSERT PROOF], [INSERT LINK].\n- Keep voice consistent with the Voice Card.\n- You MUST return valid JSON that matches the requested schema.\n"

/-- Piece of `ASSETS_USER_TEMPLATE` before the product-description hole. -/
def assetsUserPre : List Char := strL "Generate a multi-channel marketing plan and copy.\n\nInputs:\nProduct description (source of truth): "

/-- Piece of `ASSETS_USER_TEMPLATE` between product description and voice card. -/
def assetsUserMid : List Char := strL "\n\nBrand Voice Card (must follow):\n"

/-- Schema tail of `ASSETS_USER_TEMPLATE` after the voice-card hole. -/
def assetsUserSchema : List Char := strL "\n\nOutput JSON schema:\n\x7b\n  \"campaign_core\": \x7b\n    \"big_idea\": \"...\",\n    \"key_messages\": [\"...\", \"...\", \"...\"],\n    \"primary_cta\": \"...\"\n  \x7d,\n  \"email_sequence\": \x7b\n    \"email_1\": \x7b\n      \"goal\": \"...\",\n      \"subject\": \"...\",\n      \"preheader\": \"...\",\n      \"body\": \"...\",\n      \"cta\": \"...\"\n    \x7d,\n    \"email_2\": \x7b\n      \"goal\": \"...\",\n      \"subject\": \"...\",\n      \"preheader\": \"...\",\n      \"body\": \"...\",\n      \"cta\": \"...\"\n    \x7d,\n    \"email_3\": \x7b\n      \"goal\": \"...\",\n      \"subject\": \"...\",\n      \"preheader\": \"...\",\n      \"body\": \"...\",\n      \"cta\": \"...\"\n    \x7d\n  \x7d,\n  \"social\": \x7b\n    \"linkedin\": [\n      \x7b\n        \"post\": \"...\",\n        \"creative_direction\": \"...\",\n        \"hashtags\": [\"...\",\"...\"]\n      \x7d\n    ],\n    \"instagram\": [\n      \x7b\n        \"caption\": \"...\",\n        \"reel_script\": \"...\",\n        \"on_screen_text\": [\"...\",\"...\"],\n        \"hashtags\": [\"...\",\"...\"]\n      \x7d\n    ],\n    \"x\": [\n      \x7b\n        \"post\": \"...\"\n      \x7d\n    ]\n  \x7d,\n  \"web_landing_page\": \x7b\n    \"hero_headline\": \"...\",\n    \"hero_subhead\": \"...\",\n    \"sections\": [\n      \x7b\n        \"title\": \"...\",\n        \"copy\": \"...\"\n      \x7d\n    ],\n    \"faq\": [\n      \x7b\n        \"q\": \"...\",\n        \"a\": \"...\"\n      \x7d\n    ],\n    \"meta_title\": \"...\",\n    \"meta_description\": \"...\"\n  \x7d\n\x7d\n"

/-- Model of `ASSETS_USER_TEMPLATE.format` (src/app.py lines 111-190 and
302-305): the rendered stage-2 user payload, embedding the serialized voice
card. -/
def assets_user (product_description voice_card_json : List Char) : List Char :=
  assetsUserPre ++ product_description ++ assetsUserMid ++ voice_card_json
    ++ assetsUserSchema

/-- System instruction for stage 3 (src/app.py lines 192-203). -/
def AUDIT_INSTRUCTIONS : List Char :=
  strL "You are a meticulous brand QA reviewer.\nReturn VALID JSON ONLY. No markdown. No extra commentary.\n\nTask:\nScore each asset for voice consistency against the Voice Card and message consistency across channels.\n\nScoring:\n- score from 1 to 5 (5 = perfect alignment)\n- Provide a short why + an actionable fix suggestion.\n- Do NOT invent product facts in fixes. Use placeholders if needed.\n- You MUST return valid JSON that matches the requested schema.\n"

/-- Piece of `AUDIT_USER_TEMPLATE` before the voice-card hole. -/
def auditUserPre : List Char := strL "Audit the following assets.\n\nVoice Card:\n"

/-- Piece of `AUDIT_USER_TEMPLATE` between voice card and assets. -/
def auditUserMid : List Char := strL "\n\nAssets:\n"

/-- Schema tail of `AUDIT_USER_TEMPLATE` after the assets hole. -/
def auditUserSchema : List Char := strL "\n\nReturn JSON schema:\n\x7b\n  \"overall\": \x7b\n    \"average_score\": 0,\n    \"top_drift_themes\": [\"...\",\"...\"],\n    \"global_fixes\": [\"...\",\"...\"]\n  \x7d,\n  \"items\": [\n    \x7b\n      \"asset_id\": \"email_sequence.email_1.body\",\n      \"channel\": \"email\",\n      \"score\": 1,\n      \"why\": \"...\",\n      \"fix_suggestion\": \"...\"\n    \x7d\n  ]\n\x7d\n"

/-- Model of `AUDIT_USER_TEMPLATE.format` (src/app.py lines 205-230 and
322-325): the rendered stage-3 user payload. -/
def audit_user (voice_card_json assets_json : List Char) : List Char :=
  auditUserPre ++ voice_card_json ++ auditUserMid ++ assets_json
    ++ auditUserSchema

/-- One outbound provider call: the system instruction and user payload passed
to `client.chat.completions.create` (src/app.py lines 32-40).  The model name,
the json_object response format and the fixed temperature 0.7 are constants of
that call and carry no claim content, so they are not recorded. -/
structure LlmCall where
  instructions : List Char
  user_input : List Char
deriving DecidableEq, Repr

/-- Error taxonomy surfaced by the LLM call adapter: a provider exception
carrying its message, or one of the extractor failures.  The except clause of
`call_llm_json` (src/app.py lines 43-45) displays and re-raises the original
exception, so the kind is preserved for the caller. -/
inductive LlmError : Type where
  | providerError (msg : List Char) : LlmError
  | extractionError : LlmError
  | parseError : LlmError
deriving DecidableEq, Repr

/-- Result of one adapter invocation given the provider response: a provider
failure propagates as `providerError`; a successful response is passed through
the JSON extractor, whose failures propagate with their kind intact. -/
def llmOutcome {α : Type} (parse : List Char → Option α)
    (resp : Except (List Char) (List Char)) : Except LlmError α :=
  match resp with
  | Except.error e => Except.error (LlmError.providerError e)
  | Except.ok content =>
    match extract_json parse content with
    | Except.ok v => Except.ok v
    | Except.error ExtractError.extractionError => Except.error LlmError.extractionError
    | Except.error ExtractError.parseError => Except.error LlmError.parseError

/-- Model of `call_llm_json` (src/app.py lines 27-45).  The provider is an
oracle receiving the index of the call (the number of provider calls made so
far) and the full call; the log of outbound calls is threaded explicitly.  One
invocation makes exactly one provider call and never retries. -/
def call_llm_json {α : Type}
    (provider : Nat → LlmCall → Except (List Char) (List Char))
    (parse : List Char → Option α) (instructions user_input : List Char)
    (log : List LlmCall) : Except LlmError α × List LlmCall :=
  (llmOutcome parse (provider log.length ⟨instructions, user_input⟩),
    log ++ [⟨instructions, user_input⟩])

/-- The three pipeline slots of `st.session_state`: the voice card, the asset
bundle and the audit report (src/app.py lines 294, 307, 327).  The document
type is abstract; the handlers never inspect stored documents. -/
structure Session (α : Type) where
  voice_card : Option α
  assets : Option α
  audit : Option α

/-- Stage-level error taxonomy: `preconditionError` models the warning branch
of the audit handler (src/app.py lines 313-314); the remaining constructors
embed the adapter's failures surfaced by the handlers' except clauses. -/
inductive StageError : Type where
  | preconditionError : StageError
  | providerError (msg : List Char) : StageError
  | extractionError : StageError
  | parseError : StageError
deriving DecidableEq, Repr

/-- Inclusion of adapter errors into stage errors. -/
def StageError.ofLlm : LlmError → StageError
  | LlmError.providerError m => StageError.providerError m
  | LlmError.extractionError => StageError.extractionError
  | LlmError.parseError => StageError.parseError

/-- Model of the generate button handler (src/app.py lines 280-310): stage 1
builds the voice prompt and calls the adapter; on success the voice card is
stored immediately (line 294) and stage 2 is attempted with a prompt embedding
the serialized voice card just produced (line 304); on stage-2 success the
assets are stored (line 307).  The surrounding try/except stops at the first
failure, leaving any writes already performed in place and surfacing the
error.  Returns the updated session, the updated call log and the surfaced
failure, if any. -/
def generate {α : Type}
    (provider : Nat → LlmCall → Except (List Char) (List Char))
    (parse : List Char → Option α) (pretty : α → List Char)
    (brand_name audience objective product_description : List Char)
    (s : Session α) (log : List LlmCall) :
    Session α × List LlmCall × Option StageError :=
  match call_llm_json provider parse VOICE_CARD_INSTRUCTIONS
      (voice_card_user brand_name audience objective product_description) log with
  | (Except.error e, log1) => (s, log1, some (StageError.ofLlm e))
  | (Except.ok voice_card, log1) =>
    match call_llm_json provider parse ASSETS_INSTRUCTIONS
        (assets_user product_description (pretty voice_card)) log1 with
    | (Except.error e, log2) =>
      ({ s with voice_card := some voice_card }, log2, some (StageError.ofLlm e))
    | (Except.ok assets, log2) =>
      ({ s with voice_card := some voice_card, assets := some assets }, log2, none)

/-- Model of the run_audit button handler (src/app.py lines 312-330): if
either the voice card or the assets slot is absent the handler warns and
returns without any provider call; otherwise it calls the adapter with the
audit prompt over the two serialized documents and stores the report on
success, leaving the session untouched on failure. -/
def run_audit {α : Type}
    (provider : Nat → LlmCall → Except (List Char) (List Char))
    (parse : List Char → Option α) (pretty : α → List Char)
    (s : Session α) (log : List LlmCall) :
    Session α × List LlmCall × Option StageError :=
  match s.voice_card, s.assets with
  | some vc, some assets =>
    match call_llm_json provider parse AUDIT_INSTRUCTIONS
        (audit_user (pretty vc) (pretty assets)) log with
    | (Except.ok audit, log1) => ({ s with audit := some audit }, log1, none)
    | (Except.error e, log1) => (s, log1, some (StageError.ofLlm e))
  | _, _ => (s, log, some StageError.preconditionError)

/-- Unfolding lemma for `generate`: one step per adapter outcome. -/
theorem generate_eq {α : Type}
    (provider : Nat → LlmCall → Except (List Char) (List Char))
    (parse : List Char → Option α) (pretty : α → List Char)
    (bn au ob pd : List Char) (s : Session α) (log : List LlmCall) :
    generate provider parse pretty bn au ob pd s log =
      match llmOutcome parse
          (provider log.length ⟨VOICE_CARD_INSTRUCTIONS, voice_card_user bn au ob pd⟩) with
      | Except.error e =>
        (s, log ++ [⟨VOICE_CARD_INSTRUCTIONS, voice_card_user bn au ob pd⟩],
          some (StageError.ofLlm e))
      | Except.ok v =>
        match llmOutcome parse
            (provider (log ++ [(⟨VOICE_CARD_INSTRUCTIONS, voice_card_user bn au ob pd⟩ : LlmCall)]).length
              ⟨ASSETS_INSTRUCTIONS, assets_user pd (pretty v)⟩) with
        | Except.error e =>
          ({ s with voice_card := some v },
            (log ++ [⟨VOICE_CARD_INSTRUCTIONS, voice_card_user bn au ob pd⟩])
              ++ [⟨ASSETS_INSTRUCTIONS, assets_user pd (pretty v)⟩],
            some (StageError.ofLlm e))
        | Except.ok a =>
          ({ s with voice_card := some v, assets := some a },
            (log ++ [⟨VOICE_CARD_INSTRUCTIONS, voice_card_user bn au ob pd⟩])
              ++ [⟨ASSETS_INSTRUCTIONS, assets_user pd (pretty v)⟩],
            none) := by
  cases h1 : llmOutcome parse
      (provider log.length (⟨VOICE_CARD_INSTRUCTIONS, voice_card_user bn au ob pd⟩ : LlmCall)) with
  | error e => simp [generate, call_llm_json, h1]
  | ok v =>
    dsimp only
    cases h2 : llmOutcome parse
        (provider (log.length + 1)
          (⟨ASSETS_INSTRUCTIONS, assets_user pd (pretty v)⟩ : LlmCall)) with
    | error e => simp [generate, call_llm_json, h1, h2]
    | ok a => simp [generate, call_llm_json, h1, h2]

/-- Unfolding lemma for `run_audit` when both prerequisite slots are present. -/
theorem run_audit_eq {α : Type}
    (provider : Nat → LlmCall → Except (List Char) (List Char))
    (parse : List Char → Option α) (pretty : α → List Char)
    (vc a : α) (ad : Option α) (log : List LlmCall) :
    run_audit provider parse pretty ⟨some vc, some a, ad⟩ log =
      match llmOutcome parse
          (provider log.length ⟨AUDIT_INSTRUCTIONS, audit_user (pretty vc) (pretty a)⟩) with
      | Except.ok audit =>
        (⟨some vc, some a, some audit⟩,
          log ++ [⟨AUDIT_INSTRUCTIONS, audit_user (pretty vc) (pretty a)⟩], none)
      | Except.error e =>
        (⟨some vc, some a, ad⟩,
          log ++ [⟨AUDIT_INSTRUCTIONS, audit_user (pretty vc) (pretty a)⟩],
          some (StageError.ofLlm e)) := by
  cases h : llmOutcome parse
      (provider log.length ⟨AUDIT_INSTRUCTIONS, audit_user (pretty vc) (pretty a)⟩) with
  | ok audit => simp [run_audit, call_llm_json, h]
  | error e => simp [run_audit, call_llm_json, h]

/-- Claim C7 (confirmed): one adapter invocation performs exactly one provider
call (no internal retry); a provider failure propagates with its message as a
provider error; on provider success the extractor's result is passed through,
so extraction and parse failures keep their kinds, distinct from provider
errors, and no failure is swallowed. -/
theorem c7_adapter_propagation :
    ∀ (α : Type) (provider : Nat → LlmCall → Except (List Char) (List Char))
      (parse : List Char → Option α) (instructions user_input : List Char)
      (log : List LlmCall),
      (call_llm_json provider parse instructions user_input log).2
        = log ++ [⟨instructions, user_input⟩] ∧
      (∀ e, provider log.length ⟨instructions, user_input⟩ = Except.error e →
        (call_llm_json provider parse instructions user_input log).1
          = Except.error (LlmError.providerError e)) ∧
      (∀ content, provider log.length ⟨instructions, user_input⟩ = Except.ok content →
        (call_llm_json provider parse instructions user_input log).1
          = (extract_json parse content).mapError
              (fun err => match err with
                | ExtractError.extractionError => LlmError.extractionError
                | ExtractError.parseError => LlmError.parseError)) := by
  intro α provider parse instructions user_input log
  refine ⟨rfl, ?_, ?_⟩
  · intro e he
    simp [call_llm_json, llmOutcome, he]
  · intro content hc
    simp only [call_llm_json, llmOutcome, hc]
    cases hx : extract_json parse content with
    | ok v => simp [Except.mapError]
    | error err => cases err <;> simp [Except.mapError]

/-- Provider oracle that fails every call with a fixed message. -/
def providerFail : Nat → LlmCall → Except (List Char) (List Char) :=
  fun _ _ => Except.error (strL "rate limit")

/-- Claim C7, witness: a failing provider call surfaces as a provider error
carrying the provider message. -/
theorem c7_witness :
    (call_llm_json providerFail jsonParse (strL "sys") (strL "user") []).1
      = Except.error (LlmError.providerError (strL "rate limit")) :=
  (c7_adapter_propagation Json providerFail jsonParse (strL "sys") (strL "user") []).2.1
    (strL "rate limit") rfl

/-- Claim C2 (confirmed): a failing audit leaves the session untouched; a
stage-1 failure in the generate action leaves the session untouched; and a
successful stage 1 followed by a failing stage 2 leaves exactly the voice card
stored by stage 1 with the assets and audit slots at their prior values. -/
theorem c2_no_partial_writes :
    (∀ (α : Type) (provider : Nat → LlmCall → Except (List Char) (List Char))
        (parse : List Char → Option α) (pretty : α → List Char)
        (s : Session α) (log : List LlmCall),
        (run_audit provider parse pretty s log).2.2.isSome →
        (run_audit provider parse pretty s log).1 = s) ∧
    (∀ (α : Type) (provider : Nat → LlmCall → Except (List Char) (List Char))
        (parse : List Char → Option α) (pretty : α → List Char)
        (bn au ob pd : List Char) (s : Session α) (log log1 : List LlmCall)
        (e : LlmError),
        call_llm_json provider parse VOICE_CARD_INSTRUCTIONS
            (voice_card_user bn au ob pd) log = (Except.error e, log1) →
        generate provider parse pretty bn au ob pd s log
          = (s, log1, some (StageError.ofLlm e))) ∧
    (∀ (α : Type) (provider : Nat → LlmCall → Except (List Char) (List Char))
        (parse : List Char → Option α) (pretty : α → List Char)
        (bn au ob pd : List Char) (s : Session α) (log log1 log2 : List LlmCall)
        (v : α) (e2 : LlmError),
        call_llm_json provider parse VOICE_CARD_INSTRUCTIONS
            (voice_card_user bn au ob pd) log = (Except.ok v, log1) →
        call_llm_json provider parse ASSETS_INSTRUCTIONS
            (assets_user pd (pretty v)) log1 = (Except.error e2, log2) →
        generate provider parse pretty bn au ob pd s log
          = ({ s with voice_card := some v }, log2, some (StageError.ofLlm e2))) := by
  refine ⟨?_, ?_, ?_⟩
  · intro α provider parse pretty s log hsome
    rcases s with ⟨vc, as_, ad⟩
    cases vc with
    | none => rfl
    | some v0 =>
      cases as_ with
      | none => rfl
      | some a0 =>
        rw [run_audit_eq] at hsome ⊢
        cases h : llmOutcome parse
            (provider log.length ⟨AUDIT_INSTRUCTIONS, audit_user (pretty v0) (pretty a0)⟩) with
        | ok audit => rw [h] at hsome; simp at hsome
        | error e => rfl
  · intro α provider parse pretty bn au ob pd s log log1 e h1
    have hfst : llmOutcome parse
        (provider log.length ⟨VOICE_CARD_INSTRUCTIONS, voice_card_user bn au ob pd⟩)
        = Except.error e := congrArg Prod.fst h1
    have hsnd : log ++ [(⟨VOICE_CARD_INSTRUCTIONS, voice_card_user bn au ob pd⟩ : LlmCall)]
        = log1 := congrArg Prod.snd h1
    rw [generate_eq]
    simp only [hfst, hsnd]
  · intro α provider parse pretty bn au ob pd s log log1 log2 v e2 h1 h2
    have hfst : llmOutcome parse
        (provider log.length ⟨VOICE_CARD_INSTRUCTIONS, voice_card_user bn au ob pd⟩)
        = Except.ok v := congrArg Prod.fst h1
    have hsnd : log ++ [(⟨VOICE_CARD_INSTRUCTIONS, voice_card_user bn au ob pd⟩ : LlmCall)]
        = log1 := congrArg Prod.snd h1
    have hfst2 : llmOutcome parse
        (provider log1.length ⟨ASSETS_INSTRUCTIONS, assets_user pd (pretty v)⟩)
        = Except.error e2 := congrArg Prod.fst h2
    have hsnd2 : log1 ++ [(⟨ASSETS_INSTRUCTIONS, assets_user pd (pretty v)⟩ : LlmCall)]
        = log2 := congrArg Prod.snd h2
    rw [generate_eq]
    simp only [hfst, hsnd, hfst2, hsnd2]

/-- Stage-1 response text used by the concrete provider oracles. -/
def vcText : List Char := strL "\x7b\"voice\": \"warm\"\x7d"

/-- Parsed form of `vcText`. -/
def vcVal : Json := Json.obj [(strL "voice", Json.str (strL "warm"))]

/-- Stage-2 response text used by the concrete provider oracles. -/
def assetsText : List Char := strL "\x7b\"assets\": 2\x7d"

/-- Parsed form of `assetsText`. -/
def assetsVal : Json := Json.obj [(strL "assets", Json.num 2)]

/-- Provider oracle whose first call succeeds with `vcText` and whose later
calls fail with a fixed message. -/
def providerSecondFails : Nat → LlmCall → Except (List Char) (List Char) :=
  fun n _ => if n = 0 then Except.ok vcText else Except.error (strL "boom")

/-- Claim C2, witness: with a provider whose second call fails, the generate
action on an empty session stores exactly the stage-1 voice card, leaves the
assets and audit slots unset, and surfaces the provider error. -/
theorem c2_witness :
    generate providerSecondFails jsonParse prettyJson
        (strL "Acme") (strL "Gym-goers") (strL "Drive trials") (strL "bottle")
        (⟨none, none, none⟩ : Session Json) []
      = (⟨some vcVal, none, none⟩,
          ([] ++ [⟨VOICE_CARD_INSTRUCTIONS,
            voice_card_user (strL "Acme") (strL "Gym-goers") (strL "Drive trials") (strL "bottle")⟩])
            ++ [⟨ASSETS_INSTRUCTIONS, assets_user (strL "bottle") (prettyJson vcVal)⟩],
          some (StageError.ofLlm (LlmError.providerError (strL "boom")))) :=
  c2_no_partial_writes.2.2 Json providerSecondFails jsonParse prettyJson
    (strL "Acme") (strL "Gym-goers") (strL "Drive trials") (strL "bottle")
    ⟨none, none, none⟩ [] _ _ vcVal (LlmError.providerError (strL "boom")) rfl rfl

/-- Provider oracle whose first call succeeds with `vcText` and whose later
calls succeed with `assetsText`. -/
def providerOk : Nat → LlmCall → Except (List Char) (List Char) :=
  fun n _ => if n = 0 then Except.ok vcText else Except.ok assetsText

/-- Claim C1, counterexample: the code has no standalone assets stage — its
only route to stage 2 is the combined generate action — and on an Empty
session that action completes without a precondition error while performing
two provider calls, refuting the claim that invoking the assets stage on an
Empty session always fails with a precondition error and performs zero
provider calls. -/
theorem c1_counterexample :
    (generate providerOk jsonParse prettyJson (strL "Acme") (strL "Gym-goers")
        (strL "Drive trials") (strL "bottle") (⟨none, none, none⟩ : Session Json) []).2.2
      = none ∧
    (generate providerOk jsonParse prettyJson (strL "Acme") (strL "Gym-goers")
        (strL "Drive trials") (strL "bottle") (⟨none, none, none⟩ : Session Json) []).2.1.length
      = 2 :=
  ⟨rfl, rfl⟩

/-- Claim C1 (amended): the audit stage fails with the precondition error and
performs zero provider calls (the call log is unchanged) whenever the voice
card or the asset bundle is absent; the assets stage has no standalone entry
point — the combined generate action never reports a precondition error and
always begins with the stage-1 provider call, so it performs at least one
provider call even on an Empty session. -/
theorem c1_preconditions :
    (∀ (α : Type) (provider : Nat → LlmCall → Except (List Char) (List Char))
        (parse : List Char → Option α) (pretty : α → List Char)
        (s : Session α) (log : List LlmCall),
        s.voice_card = none ∨ s.assets = none →
        run_audit provider parse pretty s log
          = (s, log, some StageError.preconditionError)) ∧
    (∀ (α : Type) (provider : Nat → LlmCall → Except (List Char) (List Char))
        (parse : List Char → Option α) (pretty : α → List Char)
        (bn au ob pd : List Char) (s : Session α) (log : List LlmCall),
        (generate provider parse pretty bn au ob pd s log).2.2
            ≠ some StageError.preconditionError ∧
        log.length + 1 ≤ (generate provider parse pretty bn au ob pd s log).2.1.length) := by
  constructor
  · intro α provider parse pretty s log hpre
    rcases s with ⟨vc, as_, ad⟩
    cases vc with
    | none => rfl
    | some v0 =>
      cases as_ with
      | none => rfl
      | some a0 =>
        rcases hpre with h | h <;> simp at h
  · intro α provider parse pretty bn au ob pd s log
    rw [generate_eq]
    cases h1 : llmOutcome parse
        (provider log.length (⟨VOICE_CARD_INSTRUCTIONS, voice_card_user bn au ob pd⟩ : LlmCall)) with
    | error e =>
      refine ⟨?_, ?_⟩
      · cases e <;> simp [StageError.ofLlm]
      · simp
    | ok v =>
      dsimp only
      cases h2 : llmOutcome parse
          (provider (log ++ [(⟨VOICE_CARD_INSTRUCTIONS, voice_card_user bn au ob pd⟩ : LlmCall)]).length
            (⟨ASSETS_INSTRUCTIONS, assets_user pd (pretty v)⟩ : LlmCall)) with
      | error e =>
        refine ⟨?_, ?_⟩
        · cases e <;> simp [StageError.ofLlm]
        · simp
      | ok a => exact ⟨by simp, by simp⟩

/-- Claim C1, witness: the audit handler on a session missing the voice card
returns the precondition error with the call log unchanged, and the generate
action on an Empty session does not report a precondition error. -/
theorem c1_witness :
    run_audit providerOk jsonParse prettyJson
        (⟨none, some assetsVal, none⟩ : Session Json) []
      = (⟨none, some assetsVal, none⟩, [], some StageError.preconditionError) ∧
    (generate providerOk jsonParse prettyJson (strL "Acme") (strL "Gym-goers")
        (strL "Drive trials") (strL "bottle") (⟨none, none, none⟩ : Session Json) []).2.2
      ≠ some StageError.preconditionError :=
  ⟨c1_preconditions.1 Json providerOk jsonParse prettyJson
      ⟨none, some assetsVal, none⟩ [] (Or.inl rfl),
    (c1_preconditions.2 Json providerOk jsonParse prettyJson (strL "Acme") (strL "Gym-goers")
      (strL "Drive trials") (strL "bottle") ⟨none, none, none⟩ []).1⟩

/-- Session invariant from the spec data model: an asset bundle implies a
voice card, and an audit report implies both. -/
def SessionInv {α : Type} (s : Session α) : Prop :=
  (s.assets.isSome → s.voice_card.isSome) ∧
  (s.audit.isSome → s.voice_card.isSome ∧ s.assets.isSome)

/-- Claim C3 (confirmed): both handlers preserve the session invariant that an
asset bundle is stored only alongside a voice card and an audit report only
alongside both. -/
theorem c3_invariant :
    ∀ (α : Type) (provider : Nat → LlmCall → Except (List Char) (List Char))
      (parse : List Char → Option α) (pretty : α → List Char)
      (bn au ob pd : List Char) (s : Session α) (log : List LlmCall),
      SessionInv s →
      SessionInv (generate provider parse pretty bn au ob pd s log).1 ∧
      SessionInv (run_audit provider parse pretty s log).1 := by
  intro α provider parse pretty bn au ob pd s log hinv
  constructor
  · rw [generate_eq]
    cases h1 : llmOutcome parse
        (provider log.length (⟨VOICE_CARD_INSTRUCTIONS, voice_card_user bn au ob pd⟩ : LlmCall)) with
    | error e => simpa using hinv
    | ok v =>
      dsimp only
      cases h2 : llmOutcome parse
          (provider (log ++ [(⟨VOICE_CARD_INSTRUCTIONS, voice_card_user bn au ob pd⟩ : LlmCall)]).length
            (⟨ASSETS_INSTRUCTIONS, assets_user pd (pretty v)⟩ : LlmCall)) with
      | error e =>
        refine ⟨fun _ => by simp, fun ha => ⟨by simp, ?_⟩⟩
        have := hinv.2 (by simpa using ha)
        simpa using this.2
      | ok a => exact ⟨fun _ => by simp, fun _ => ⟨by simp, by simp⟩⟩
  · rcases s with ⟨vc, as_, ad⟩
    cases vc with
    | none => exact hinv
    | some v0 =>
      cases as_ with
      | none => exact hinv
      | some a0 =>
        rw [run_audit_eq]
        cases h : llmOutcome parse
            (provider log.length (⟨AUDIT_INSTRUCTIONS, audit_user (pretty v0) (pretty a0)⟩ : LlmCall)) with
        | ok audit => exact ⟨fun _ => by simp, fun _ => ⟨by simp, by simp⟩⟩
        | error e => exact hinv

/-- Claim C3, witness: the invariant holds after running both handlers from
the empty session with a concrete provider. -/
theorem c3_witness :
    SessionInv (generate providerOk jsonParse prettyJson (strL "Acme") (strL "Gym-goers")
        (strL "Drive trials") (strL "bottle") (⟨none, none, none⟩ : Session Json) []).1 ∧
    SessionInv (run_audit providerOk jsonParse prettyJson
        (⟨none, none, none⟩ : Session Json) []).1 :=
  c3_invariant Json providerOk jsonParse prettyJson (strL "Acme") (strL "Gym-goers")
    (strL "Drive trials") (strL "bottle") ⟨none, none, none⟩ []
    ⟨fun h => by simp at h, fun h => by simp at h⟩

/-- A previously generated asset bundle stored in the session for the C4
scenario. -/
def oldAssets : Json := Json.obj [(strL "assets", Json.null)]

/-- A previously generated audit report stored in the session for the C4
scenario. -/
def oldAudit : Json := Json.obj [(strL "overall", Json.num 4)]

/-- A previously generated voice card stored in the session for the C4
scenario. -/
def oldVoice : Json := Json.str (strL "old voice")

/-- Claim C4, counterexample: on a post-stage-3 session (all three slots set)
with a provider that succeeds on both calls, the generate action — the code's
only way to regenerate stage 1 — replaces the stored asset bundle with the
freshly generated one, so the previously computed bundle is not left in the
session, refuting the claim as stated; the audit report does remain. -/
theorem c4_counterexample :
    (generate providerOk jsonParse prettyJson (strL "Acme") (strL "Gym-goers")
        (strL "Drive trials") (strL "bottle")
        (⟨some oldVoice, some oldAssets, some oldAudit⟩ : Session Json) []).1
      = ⟨some vcVal, some assetsVal, some oldAudit⟩ ∧
    assetsVal ≠ oldAssets := by
  refine ⟨rfl, ?_⟩
  intro h
  simp [assetsVal, oldAssets] at h

/-- Claim C4 (amended): the generate action never touches the audit slot (a
stage-3 report stays present, stale, across regeneration) and never clears the
voice or assets slots; the assets slot is replaced only when stage 2 of the
same invocation also succeeds — on any failing outcome it keeps its prior
value exactly.  Regenerating stage 1 therefore leaves the previously computed
audit report present, and leaves the previously computed asset bundle present
only when stage 2 did not succeed, since a stage-2 success replaces it. -/
theorem c4_frame :
    ∀ (α : Type) (provider : Nat → LlmCall → Except (List Char) (List Char))
      (parse : List Char → Option α) (pretty : α → List Char)
      (bn au ob pd : List Char) (s : Session α) (log : List LlmCall),
      ((generate provider parse pretty bn au ob pd s log).1.audit = s.audit) ∧
      ((generate provider parse pretty bn au ob pd s log).2.2.isSome →
        (generate provider parse pretty bn au ob pd s log).1.assets = s.assets) ∧
      (s.assets.isSome → (generate provider parse pretty bn au ob pd s log).1.assets.isSome) ∧
      (s.voice_card.isSome → (generate provider parse pretty bn au ob pd s log).1.voice_card.isSome) := by
  intro α provider parse pretty bn au ob pd s log
  rw [generate_eq]
  cases h1 : llmOutcome parse
      (provider log.length (⟨VOICE_CARD_INSTRUCTIONS, voice_card_user bn au ob pd⟩ : LlmCall)) with
  | error e => exact ⟨rfl, fun _ => rfl, fun h => h, fun h => h⟩
  | ok v =>
    dsimp only
    cases h2 : llmOutcome parse
        (provider (log ++ [(⟨VOICE_CARD_INSTRUCTIONS, voice_card_user bn au ob pd⟩ : LlmCall)]).length
          (⟨ASSETS_INSTRUCTIONS, assets_user pd (pretty v)⟩ : LlmCall)) with
    | error e => exact ⟨rfl, fun _ => rfl, fun h => h, fun _ => by simp⟩
    | ok a => exact ⟨rfl, fun h => by simp at h, fun _ => by simp, fun _ => by simp⟩

/-- Claim C4, witness: with a failing stage 2, regenerating over a full
session keeps the audit report and the prior asset bundle. -/
theorem c4_witness :
    (generate providerSecondFails jsonParse prettyJson (strL "Acme") (strL "Gym-goers")
        (strL "Drive trials") (strL "bottle")
        (⟨some oldVoice, some oldAssets, some oldAudit⟩ : Session Json) []).1.audit
      = some oldAudit ∧
    (generate providerSecondFails jsonParse prettyJson (strL "Acme") (strL "Gym-goers")
        (strL "Drive trials") (strL "bottle")
        (⟨some oldVoice, some oldAssets, some oldAudit⟩ : Session Json) []).1.assets.isSome :=
  ⟨(c4_frame Json providerSecondFails jsonParse prettyJson (strL "Acme") (strL "Gym-goers")
      (strL "Drive trials") (strL "bottle") ⟨some oldVoice, some oldAssets, some oldAudit⟩ []).1,
    (c4_frame Json providerSecondFails jsonParse prettyJson (strL "Acme") (strL "Gym-goers")
      (strL "Drive trials") (strL "bottle") ⟨some oldVoice, some oldAssets, some oldAudit⟩ []).2.2.1 rfl⟩

/-- Claim C10 (confirmed): in the combined generate action the stage-2
provider call happens only after stage 1 succeeds within the same invocation
(a stage-1 failure extends the call log by the voice call alone); when stage 1
succeeds with voice card v, the session then holds v and the stage-2 user
payload embeds the serialization of that same v; and the outbound calls are
independent of whatever voice card was previously stored in the session. -/
theorem c10_stage2_gating :
    ∀ (α : Type) (provider : Nat → LlmCall → Except (List Char) (List Char))
      (parse : List Char → Option α) (pretty : α → List Char)
      (bn au ob pd : List Char) (s s2 : Session α) (log : List LlmCall),
      (∀ e, llmOutcome parse
          (provider log.length (⟨VOICE_CARD_INSTRUCTIONS, voice_card_user bn au ob pd⟩ : LlmCall))
          = Except.error e →
        (generate provider parse pretty bn au ob pd s log).2.1
          = log ++ [⟨VOICE_CARD_INSTRUCTIONS, voice_card_user bn au ob pd⟩]) ∧
      (∀ v, llmOutcome parse
          (provider log.length (⟨VOICE_CARD_INSTRUCTIONS, voice_card_user bn au ob pd⟩ : LlmCall))
          = Except.ok v →
        (generate provider parse pretty bn au ob pd s log).2.1
          = (log ++ [⟨VOICE_CARD_INSTRUCTIONS, voice_card_user bn au ob pd⟩])
            ++ [⟨ASSETS_INSTRUCTIONS, assets_user pd (pretty v)⟩] ∧
        (generate provider parse pretty bn au ob pd s log).1.voice_card = some v ∧
        (∃ pre post, assets_user pd (pretty v) = pre ++ pretty v ++ post)) ∧
      ((generate provider parse pretty bn au ob pd s log).2.1
        = (generate provider parse pretty bn au ob pd s2 log).2.1) := by
  intro α provider parse pretty bn au ob pd s s2 log
  refine ⟨?_, ?_, ?_⟩
  · intro e he
    rw [generate_eq]
    simp only [he]
  · intro v hv
    rw [generate_eq]
    simp only [hv]
    cases h2 : llmOutcome parse
        (provider (log ++ [(⟨VOICE_CARD_INSTRUCTIONS, voice_card_user bn au ob pd⟩ : LlmCall)]).length
          (⟨ASSETS_INSTRUCTIONS, assets_user pd (pretty v)⟩ : LlmCall)) with
    | error e =>
      refine ⟨rfl, rfl, assetsUserPre ++ pd ++ assetsUserMid, assetsUserSchema, ?_⟩
      simp [assets_user, List.append_assoc]
    | ok a =>
      refine ⟨rfl, rfl, assetsUserPre ++ pd ++ assetsUserMid, assetsUserSchema, ?_⟩
      simp [assets_user, List.append_assoc]
  · rw [generate_eq, generate_eq]
    cases h1 : llmOutcome parse
        (provider log.length (⟨VOICE_CARD_INSTRUCTIONS, voice_card_user bn au ob pd⟩ : LlmCall)) with
    | error e => rfl
    | ok v =>
      dsimp only
      cases h2 : llmOutcome parse
          (provider (log ++ [(⟨VOICE_CARD_INSTRUCTIONS, voice_card_user bn au ob pd⟩ : LlmCall)]).length
            (⟨ASSETS_INSTRUCTIONS, assets_user pd (pretty v)⟩ : LlmCall)) with
      | error e => rfl
      | ok a => rfl

/-- Claim C10, witness: with a provider whose stage-2 call fails, the call log
after the generate action contains exactly the voice call followed by the
assets call built from the freshly parsed voice card, and the session stores
that card. -/
theorem c10_witness :
    (generate providerSecondFails jsonParse prettyJson (strL "Acme") (strL "Gym-goers")
        (strL "Drive trials") (strL "bottle") (⟨none, none, none⟩ : Session Json) []).2.1
      = ([] ++ [⟨VOICE_CARD_INSTRUCTIONS,
          voice_card_user (strL "Acme") (strL "Gym-goers") (strL "Drive trials") (strL "bottle")⟩])
        ++ [⟨ASSETS_INSTRUCTIONS, assets_user (strL "bottle") (prettyJson vcVal)⟩] ∧
    (generate providerSecondFails jsonParse prettyJson (strL "Acme") (strL "Gym-goers")
        (strL "Drive trials") (strL "bottle") (⟨none, none, none⟩ : Session Json) []).1.voice_card
      = some vcVal ∧
    (∃ pre post, assets_user (strL "bottle") (prettyJson vcVal)
      = pre ++ prettyJson vcVal ++ post) :=
  (c10_stage2_gating Json providerSecondFails jsonParse prettyJson (strL "Acme")
    (strL "Gym-goers") (strL "Drive trials") (strL "bottle")
    ⟨none, none, none⟩ ⟨none, none, none⟩ []).2.1 vcVal rfl

/-!
Models for the display consumers of claim C8: the audit tab and the export
tab.  Note that the committed source does not parse as Python — line 364
dedents `st.divider()` to column 0 while line 365 resumes at the inner
indentation depth, an IndentationError — so the models below follow the
evidently intended indentation of lines 364-365.
-/

/-- Python `d.get(k, default)`: the stored value or the default on a dict;
`none` models the AttributeError raised when `d` is not a dict. -/
def pyGet (v : Json) (k : List Char) (default : Json) : Option Json :=
  match v with
  | Json.obj fs => some ((lookupField fs k).getD default)
  | _ => none

/-- Data displayed by the audit tab: the value passed to st.metric and the
theme list, when the overall section is shown, and the raw document passed to
st.code. -/
structure AuditView where
  score_shown : Option Json
  themes_shown : Option (List Json)
  raw_shown : Json

/-- Model of the audit tab body for a stored audit document (src/app.py lines
351-365, with lines 364-365 re-indented into the enclosing branch as
evidently intended).  `none` models an exception in the display code: a `.get`
on a non-dict `overall` value, or iterating themes that are not a sequence
(the model restricts iteration to arrays; extractor output at the top level is
always a dict, so the non-dict document case is unreachable). -/
def audit_tab (audit_data : Json) : Option AuditView :=
  match audit_data with
  | Json.obj fs =>
    match lookupField fs (strL "overall") with
    | none => some ⟨none, none, audit_data⟩
    | some ov =>
      match ov with
      | Json.obj ofs =>
        match (lookupField ofs (strL "top_drift_themes")).getD (Json.arr []) with
        | Json.arr themes =>
          some ⟨some ((lookupField ofs (strL "average_score")).getD (Json.num 0)),
            some themes, audit_data⟩
        | _ => none
      | _ => none
  | _ => none

/-- Conversion applied by an f-string hole (`str`): a string interpolates as
itself; other values are rendered through the serializer — a modelling
simplification, immaterial to the claims, which only inspect the string
placeholder defaults. -/
def pyStr (pretty : Json → List Char) (v : Json) : List Char :=
  match v with
  | Json.str s => s
  | _ => pretty v

/-- Literal piece 0 of the export markdown f-string (src/app.py line 374). -/
def exportP0 : List Char := strL "# Brand Voice Card\nGenerated: "

/-- Literal piece 1 of the export markdown f-string (src/app.py line 374). -/
def exportP1 : List Char := strL "\n\n## Brand Information\n- **Name:** "

/-- Literal piece 2 of the export markdown f-string (src/app.py line 374). -/
def exportP2 : List Char := strL "\n- **Audience:** "

/-- Literal piece 3 of the export markdown f-string (src/app.py line 374). -/
def exportP3 : List Char := strL "\n- **Objective:** "

/-- Literal piece 4 of the export markdown f-string (src/app.py line 374). -/
def exportP4 : List Char := strL "\n\n## Voice Card (JSON)\n```json\n"

/-- Literal piece 5 of the export markdown f-string (src/app.py line 374). -/
def exportP5 : List Char := strL "\n```\n\n---\n\n# Multi-Channel Assets\n\n## Campaign Core\n```json\n"

/-- Literal piece 6 of the export markdown f-string (src/app.py line 374). -/
def exportP6 : List Char := strL "\n```\n\n## Email Sequence\n```json\n"

/-- Literal piece 7 of the export markdown f-string (src/app.py line 374). -/
def exportP7 : List Char := strL "\n```\n\n## Social Media\n```json\n"

/-- Literal piece 8 of the export markdown f-string (src/app.py line 374). -/
def exportP8 : List Char := strL "\n```\n\n## Landing Page\n```json\n"

/-- Literal piece 9 of the export markdown f-string (src/app.py line 374). -/
def exportP9 : List Char := strL "\n```\n"

/-- Literal piece 0 of the audit section f-string (src/app.py line 377). -/
def exportAudit0 : List Char := strL "\n---\n\n# Consistency Audit\n```json\n"

/-- Literal piece 1 of the audit section f-string (src/app.py line 377). -/
def exportAudit1 : List Char := strL "\n```\n"

/-- Model of the export tab's markdown construction (src/app.py lines
372-377): every field access uses `.get` with a placeholder or empty-dict
default; `none` models an AttributeError (a `.get` applied to a non-dict
value).  The timestamp hole is abstracted as `now`. -/
def export_tab (pretty : Json → List Char) (now : List Char)
    (voice_card assets : Json) (audit : Option Json) : Option (List Char) := do
  let brand ← pyGet voice_card (strL "brand") (Json.obj [])
  let nm ← pyGet brand (strL "name") (Json.str (strL "N/A"))
  let aud ← pyGet brand (strL "audience") (Json.str (strL "N/A"))
  let objv ← pyGet brand (strL "objective") (Json.str (strL "N/A"))
  let cc ← pyGet assets (strL "campaign_core") (Json.obj [])
  let es ← pyGet assets (strL "email_sequence") (Json.obj [])
  let so ← pyGet assets (strL "social") (Json.obj [])
  let wl ← pyGet assets (strL "web_landing_page") (Json.obj [])
  let base :=
    exportP0 ++ now ++ exportP1 ++ pyStr pretty nm ++ exportP2 ++ pyStr pretty aud
      ++ exportP3 ++ pyStr pretty objv ++ exportP4 ++ pretty voice_card
      ++ exportP5 ++ pretty cc ++ exportP6 ++ pretty es ++ exportP7 ++ pretty so
      ++ exportP8 ++ pretty wl ++ exportP9
  match audit with
  | some a => pure (base ++ (exportAudit0 ++ pretty a ++ exportAudit1))
  | none => pure base

/-- Claim C8 (code bug): the committed file cannot exhibit the claimed
behavior because it fails to parse (IndentationError at src/app.py lines
364-365), so the audit tab never renders for any document.  This theorem
certifies the evidently intended code, re-indented, universally: every audit
document missing the expected `overall` key displays no metric and no themes
yet still renders the raw document without an error; every audit document
whose `overall` section lacks the score and theme keys displays the
placeholder score 0 and an empty theme list; and for every voice-card
document missing the `brand` key, every assets document and every optional
audit report, the export succeeds, substituting the `N/A` placeholder for
each brand field and the empty-object default for each absent assets
section. -/
theorem c8_intended_defaults :
    (∀ fs : List (List Char × Json), lookupField fs (strL "overall") = none →
        audit_tab (Json.obj fs) = some ⟨none, none, Json.obj fs⟩) ∧
    (∀ (fs ofs : List (List Char × Json)),
        lookupField fs (strL "overall") = some (Json.obj ofs) →
        lookupField ofs (strL "average_score") = none →
        lookupField ofs (strL "top_drift_themes") = none →
        audit_tab (Json.obj fs) = some ⟨some (Json.num 0), some [], Json.obj fs⟩) ∧
    (∀ (pretty : Json → List Char) (now : List Char)
        (vcfs afs : List (List Char × Json)) (audit : Option Json),
        lookupField vcfs (strL "brand") = none →
        export_tab pretty now (Json.obj vcfs) (Json.obj afs) audit
          = some ((exportP0 ++ now ++ exportP1 ++ strL "N/A"
              ++ exportP2 ++ strL "N/A" ++ exportP3 ++ strL "N/A"
              ++ exportP4 ++ pretty (Json.obj vcfs)
              ++ exportP5 ++ pretty ((lookupField afs (strL "campaign_core")).getD (Json.obj []))
              ++ exportP6 ++ pretty ((lookupField afs (strL "email_sequence")).getD (Json.obj []))
              ++ exportP7 ++ pretty ((lookupField afs (strL "social")).getD (Json.obj []))
              ++ exportP8 ++ pretty ((lookupField afs (strL "web_landing_page")).getD (Json.obj []))
              ++ exportP9)
            ++ (match audit with
                | some a => exportAudit0 ++ pretty a ++ exportAudit1
                | none => []))) := by
  refine ⟨?_, ?_, ?_⟩
  · intro fs h
    simp [audit_tab, h]
  · intro fs ofs h1 h2 h3
    simp [audit_tab, h1, h2, h3]
  · intro pretty now vcfs afs audit hbrand
    have hnil : ∀ k : List Char, lookupField [] k = none := fun _ => rfl
    cases audit with
    | none => simp [export_tab, pyGet, hbrand, hnil, pyStr]
    | some a => simp [export_tab, pyGet, hbrand, hnil, pyStr]

/-- Claim C8, witness: a concrete audit document missing `overall` renders
with no metric, and a concrete export over empty documents succeeds with the
placeholders substituted. -/
theorem c8_witness :
    audit_tab (Json.obj [(strL "items", Json.arr [])])
      = some ⟨none, none, Json.obj [(strL "items", Json.arr [])]⟩ ∧
    export_tab prettyJson (strL "2026-10-12 00:00:00") (Json.obj []) (Json.obj []) none
      = some (exportP0 ++ strL "2026-10-12 00:00:00" ++ exportP1 ++ strL "N/A"
          ++ exportP2 ++ strL "N/A" ++ exportP3 ++ strL "N/A"
          ++ exportP4 ++ prettyJson (Json.obj [])
          ++ exportP5 ++ prettyJson (Json.obj []) ++ exportP6 ++ prettyJson (Json.obj [])
          ++ exportP7 ++ prettyJson (Json.obj []) ++ exportP8 ++ prettyJson (Json.obj [])
          ++ exportP9) := by
  refine ⟨c8_intended_defaults.1 [(strL "items", Json.arr [])] rfl, ?_⟩
  have h := c8_intended_defaults.2.2 prettyJson (strL "2026-10-12 00:00:00") [] [] none rfl
  simpa using h

end BrandVoice
